import Mathlib

/-!
# Verification of the freertos-mcpp synchronization layer

Shallow embedding of the condition-variable protocol, mutex, semaphore,
queue, condition-flags and thread-exit logic of the freertos-mcpp
repository (`src/condition_variable.cpp`, `src/condition_flags.cpp`,
`src/mutex.cpp`, `src/queue.cpp`, `src/semaphore.cpp`, `src/thread.cpp`),
together with theorems settling the specification claims about them.

Machine integers (`UBaseType_t`) are embedded as `Nat` with explicit
`% 2 ^ 32` where the source's unsigned wrap-around matters.  Kernel
primitives (FreeRTOS queue / semaphore / event-group calls) are external
collaborators of the repository; they are modelled from the
specification's description of the blocking substrate and the documented
kernel semantics, each such definition carries a doc comment saying so.
Fatal `configASSERT` checks are embedded as `Except Unit` error results.
-/

namespace FreertosMcpp

/-- Modulus of the native unsigned `UBaseType_t` arithmetic (32-bit port). -/
def UBaseMod : Nat := 2 ^ 32

/-! ## Kernel queue substrate (external collaborator)

The condition-variable relay is a `shallow_copy_queue<waiter_count_t, 1>`:
a kernel queue of capacity one carrying waiter counts.  The repository's
`queue::push_front` / `queue::replace` / `queue::pop_front` wrappers
(`src/queue.cpp`) forward to the kernel calls `xQueueSendToFront`,
`xQueueOverwrite` and `xQueueReceive`; the kernel calls themselves are
modelled below.  Queue contents are a front-first list of stored values. -/

/-- Modelled from the spec: kernel `xQueueSendToFront` with zero wait time
(the default `waittime` of `shallow_copy_queue::push_front`) on a queue of
capacity `cap` — the push succeeds and stores the value at the front only
when a free slot exists, otherwise it fails and the contents are untouched
(§4.3: push-front, returns false if the queue is full). -/
def queueSendToFront (cap : Nat) (items : List Nat) (v : Nat) : Bool × List Nat :=
  if items.length < cap then (true, v :: items) else (false, items)

/-- Modelled from the spec: kernel `xQueueOverwrite` on a capacity-one
queue — always succeeds, replacing whatever the sole slot holds
(§4.3: "replace (overwrite the sole slot of a depth-1 queue)"). -/
def queueOverwrite (_items : List Nat) (v : Nat) : List Nat :=
  [v]

/-! ## condition_variable state and notification

From `src/condition_variable.cpp`: the state is the live waiter counter
`waiters_` (`UBaseType_t`) and the depth-one relay queue `queue_`. -/

/-- The `condition_variable` fields visible to the notify operations:
`waiters_` and the contents of the depth-one relay `queue_`. -/
structure CVState where
  waiters : Nat
  relay : List Nat
deriving DecidableEq, Repr

/-- `condition_variable::notify(waiter_count_t waiters)`: pushes the count
onto the front of the relay with zero wait time, discarding the success
result ("leaves a previous unconsumed message in the queue, possibly
blocking the effect of the current call"). -/
def cv_notify (s : CVState) (v : Nat) : CVState :=
  { s with relay := (queueSendToFront 1 s.relay v).2 }

/-- `condition_variable::notify_one()`: reads `waiters_` and notifies with
count 1 only when it is positive. -/
def cv_notify_one (s : CVState) : CVState :=
  if 0 < s.waiters then cv_notify s 1 else s

/-- `condition_variable::notify_all()`: reads `waiters_` and notifies with
the live waiter count only when it is positive. -/
def cv_notify_all (s : CVState) : CVState :=
  if 0 < s.waiters then cv_notify s s.waiters else s

/-! ## condition_variable::wait_for

`wait_for` is straight-line code; its execution is embedded as the exact
sequence of states it passes through.  The relay pop blocks with a
timeout while the lock is released, so its outcome depends on concurrent
notifiers: the value received (`popped`, `none` meaning the pop timed
out) and the relay contents found after the lock is reacquired
(`relayMid`, which concurrent notifies may have refilled) are oracle
inputs of the embedding.  The entry `configASSERT(lock.owns_lock())` is
embedded by returning `none` when the caller does not hold the lock. -/

/-- `cv_status` return type of `wait_for`. -/
inductive CvStatus where
  | no_timeout
  | timeout
deriving DecidableEq, Repr

/-- One observed point of a `wait_for` execution: whether the caller holds
the external lock, the value of `waiters_`, and the relay contents. -/
structure WaitObs where
  lockHeld : Bool
  waiters : Nat
  relay : List Nat
deriving DecidableEq, Repr

/-- Result of a `wait_for` execution: the sequence of states passed
through, the final state, the returned `cv_status`, and whether the
relay was written by the chaining `queue_.replace` call. -/
structure WaitResult where
  trace : List WaitObs
  final : WaitObs
  status : CvStatus
  relayWritten : Bool
deriving DecidableEq, Repr

/-- `condition_variable::wait_for(unique_lock<mutex>&, duration)`
(`src/condition_variable.cpp` lines 153-187), embedded step by step:
increment `waiters_` (lock still held), unlock, pop the relay with
timeout (outcome `popped`; relay contents on return `relayMid`), relock,
decrement `waiters_`, and on success chain
`rem_waiters = min(rx_waiters - 1, waiters_)` through `queue_.replace`
when positive.  All counter arithmetic is the source's unsigned
`UBaseType_t` arithmetic, taken modulo `UBaseMod`. -/
def cv_wait_for (s0 : WaitObs) (popped : Option Nat) (relayMid : List Nat) :
    Option WaitResult :=
  if s0.lockHeld = true then
    let s1 : WaitObs := { s0 with waiters := (s0.waiters + 1) % UBaseMod }
    let s2 : WaitObs := { s1 with lockHeld := false }
    let s3 : WaitObs := { s2 with relay := relayMid }
    let s4 : WaitObs := { s3 with lockHeld := true }
    let s5 : WaitObs := { s4 with waiters := (s4.waiters + (UBaseMod - 1)) % UBaseMod }
    match popped with
    | none => some ⟨[s0, s1, s2, s3, s4, s5], s5, CvStatus.timeout, false⟩
    | some rx =>
      let rem := min ((rx + (UBaseMod - 1)) % UBaseMod) s5.waiters
      if 0 < rem then
        let s6 : WaitObs := { s5 with relay := queueOverwrite s5.relay rem }
        some ⟨[s0, s1, s2, s3, s4, s5, s6], s6, CvStatus.no_timeout, true⟩
      else
        some ⟨[s0, s1, s2, s3, s4, s5], s5, CvStatus.no_timeout, false⟩
  else
    none

/-! ## Mutex (src/mutex.cpp) -/

/-- Kernel mutex state: the recorded holder thread (stored natively by
the kernel; `none` = unlocked) and the semaphore count (1 = free). -/
structure MutexSt where
  holder : Option Nat
  count : Nat
deriving DecidableEq, Repr

/-- `thread::get_id()` of a possibly-null `thread*`: the id is the task
handle itself (`id(this)`), so the null pointer maps to id 0 while every
live thread has a nonzero id. -/
def thread_ptr_id (p : Option Nat) : Nat := p.getD 0

/-- Modelled from the spec: kernel `xSemaphoreGive` on a mutex — succeeds
only when the calling thread is the recorded holder, clearing the holder
and making the lock available again (§4.4, §6). -/
def xSemaphoreGiveMutex (m : MutexSt) (current : Nat) : Bool × MutexSt :=
  if m.holder = some current then (true, ⟨none, 1⟩) else (false, m)

/-- `semaphore::release()` as called by `mutex::unlock`: a single give
whose Boolean result is discarded
(`include/freertos/semaphore.h` lines 81-84). -/
def semaphore_release_mutex (m : MutexSt) (current : Nat) : MutexSt :=
  (xSemaphoreGiveMutex m current).2

/-- `mutex::unlock` (`src/mutex.cpp` lines 42-48): the `configASSERT`
compares the recorded holder's id with the calling thread's id and traps
on mismatch; on success the underlying semaphore is released. -/
def mutex_unlock (m : MutexSt) (current : Nat) : Except Unit MutexSt :=
  if thread_ptr_id m.holder = current then
    Except.ok (semaphore_release_mutex m current)
  else
    Except.error ()

/-! ## Thread exit observer (src/thread.cpp) -/

/-- `thread::set_exit_condition` (`src/thread.cpp` lines 63-68): asserts
that the thread-local exit-observer slot is still null ("cannot have
multiple threads joining"), then stores the condition pointer (a nonzero
pointer value) there. -/
def set_exit_condition (slot : Option Nat) (cond : Nat) : Except Unit (Option Nat) :=
  if slot = none then Except.ok (some cond) else Except.error ()

/-! ## condition_flags::wait (src/condition_flags.cpp) -/

/-- `cflag::timeout()`: the zero sentinel returned when a flag wait times
out (`include/freertos/condition_variable.h` lines 69-74). -/
def cflag_timeout : Nat := 0

/-- The kernel wait-condition: all bits of `mask` set (`waitForAll`) or
any bit of `mask` set. -/
def waitCondition (bits mask : Nat) (waitForAll : Bool) : Bool :=
  if waitForAll then (bits &&& mask) == mask else (bits &&& mask) != 0

/-- Modelled from the spec: kernel `xEventGroupWaitBits` (§4.6, §6) —
blocks until all (`waitForAll`) or any bit of `mask` is set or the
timeout expires; returns the event bits observed on exit (at wake or at
timeout) and clears the satisfying mask bits when `clearOnExit` and the
condition was met.  Sequentially the bits do not change while blocked, so
the wait times out exactly when the condition does not hold.  Result:
(returned bits, new event-bits state). -/
def xEventGroupWaitBits (bits mask : Nat) (clearOnExit waitForAll : Bool) :
    Nat × Nat :=
  if waitCondition bits mask waitForAll then
    (bits, if clearOnExit then bits ^^^ (bits &&& mask) else bits)
  else
    (bits, bits)

/-- `condition_flags::wait(flags, rel_time, exclusive, match_all)`
(`src/condition_flags.cpp` lines 104-111): forwards to the kernel wait
and returns only the flags relevant to the wait operation, masking the
returned bits with the queried flags. -/
def condition_flags_wait (bits mask : Nat) (exclusive matchAll : Bool) :
    Nat × Nat :=
  let r := xEventGroupWaitBits bits mask exclusive matchAll
  (mask &&& r.1, r.2)

/-! ## queue::full / queue::empty (src/queue.cpp) -/

/-- Kernel queue occupancy state: total capacity and current message
count. -/
structure KQueueSt where
  capacity : Nat
  messages : Nat
deriving DecidableEq, Repr

/-- Modelled from the spec: kernel `uxQueueMessagesWaiting` — the number
of messages stored (§4.3). -/
def uxQueueMessagesWaiting (q : KQueueSt) : Nat := q.messages

/-- Modelled from the spec: kernel `uxQueueSpacesAvailable` — the number
of free spaces (§4.3). -/
def uxQueueSpacesAvailable (q : KQueueSt) : Nat := q.capacity - q.messages

/-- Modelled from the spec: kernel `xQueueIsQueueFullFromISR` — whether
the message count reached the capacity. -/
def xQueueIsQueueFullFromISR (q : KQueueSt) : Bool := q.messages == q.capacity

/-- Modelled from the spec: kernel `xQueueIsQueueEmptyFromISR` — whether
no message is stored. -/
def xQueueIsQueueEmptyFromISR (q : KQueueSt) : Bool := q.messages == 0

/-- `queue::full` (`src/queue.cpp` lines 60-70): from thread context it
tests `uxQueueMessagesWaiting(handle()) == 0`, from an ISR it calls the
native full test. -/
def queue_full (q : KQueueSt) (isInIsr : Bool) : Bool :=
  if !isInIsr then uxQueueMessagesWaiting q == 0 else xQueueIsQueueFullFromISR q

/-- `queue::empty` (`src/queue.cpp` lines 72-82): from thread context it
tests `uxQueueSpacesAvailable(handle()) == 0`, from an ISR it calls the
native empty test. -/
def queue_empty (q : KQueueSt) (isInIsr : Bool) : Bool :=
  if !isInIsr then uxQueueSpacesAvailable q == 0 else xQueueIsQueueEmptyFromISR q

/-! ## semaphore::give / release (src/semaphore.cpp) -/

/-- Modelled from the spec: kernel `xSemaphoreGive` on a counting
semaphore of capacity `maxc` — a single count is added when below the
maximum, otherwise the give fails and the count is unchanged (§4.3). -/
def xSemaphoreGiveCount (count maxc : Nat) : Bool × Nat :=
  if count < maxc then (true, count + 1) else (false, count)

/-- `semaphore::give(update)` (`src/semaphore.cpp` lines 76-101): a loop
of single-count kernel gives that stops at the first failure; returns
whether every give succeeded, alongside the resulting count. -/
def semaphore_give (count maxc update : Nat) : Bool × Nat :=
  match update with
  | 0 => (true, count)
  | u + 1 =>
    let r := xSemaphoreGiveCount count maxc
    if r.1 then semaphore_give r.2 maxc u else (false, r.2)

/-- `semaphore::release(update)` (`include/freertos/semaphore.h` lines
81-84): calls `give` and discards its Boolean result. -/
def semaphore_release (count maxc update : Nat) : Nat :=
  (semaphore_give count maxc update).2

end FreertosMcpp

namespace FreertosMcpp

/-! ## Helper lemmas -/

/-- Unsigned increment followed by unsigned decrement is the identity on
representable counter values. -/
theorem inc_dec_mod (w : Nat) (hw : w < UBaseMod) :
    ((w + 1) % UBaseMod + (UBaseMod - 1)) % UBaseMod = w := by
  have hM : (UBaseMod - 1) % UBaseMod = UBaseMod - 1 := Nat.mod_eq_of_lt (by decide)
  have h1 : ((w + 1) % UBaseMod + (UBaseMod - 1)) % UBaseMod
      = ((w + 1) + (UBaseMod - 1)) % UBaseMod := by
    conv_lhs => rw [← hM]
    rw [← Nat.add_mod]
  rw [h1]
  have h2 : (w + 1) + (UBaseMod - 1) = w + UBaseMod := by
    have h3 : 1 ≤ UBaseMod := by decide
    omega
  rw [h2, Nat.add_mod_right]
  exact Nat.mod_eq_of_lt hw

/-- Unsigned decrement of a representable positive value is plain
subtraction. -/
theorem dec_mod (rx : Nat) (h1 : 1 ≤ rx) (h2 : rx < UBaseMod) :
    (rx + (UBaseMod - 1)) % UBaseMod = rx - 1 := by
  have h3 : rx + (UBaseMod - 1) = (rx - 1) + UBaseMod := by
    have h4 : 1 ≤ UBaseMod := by decide
    omega
  rw [h3, Nat.add_mod_right]
  exact Nat.mod_eq_of_lt (by omega)

/-! ## Claim C1 -/

/-- C1: on a successful `wait_for` (the relay pop returned
`release_count = rx`), after relocking and decrementing the waiter count
the function computes `remaining = min(rx - 1, waiters_)` over the
decremented count, overwrites the relay slot with `remaining` exactly
when it is positive, and performs no relay write at all when
`remaining = 0`. -/
theorem c1_wait_chaining (w : Nat) (relay0 relayMid : List Nat) (rx : Nat)
    (r : WaitResult) (hw : w < UBaseMod) (hrx1 : 1 ≤ rx) (hrx : rx < UBaseMod)
    (h : cv_wait_for ⟨true, w, relay0⟩ (some rx) relayMid = some r) :
    (r.relayWritten = true ↔ 0 < min (rx - 1) w) ∧
    (0 < min (rx - 1) w → r.final.relay = [min (rx - 1) w]) ∧
    (min (rx - 1) w = 0 → r.relayWritten = false ∧ r.final.relay = relayMid) := by
  have hrem := dec_mod rx hrx1 hrx
  have hw5 := inc_dec_mod w hw
  simp only [cv_wait_for, hw5, hrem] at h
  rw [if_pos trivial] at h
  rcases Nat.eq_zero_or_pos (min (rx - 1) w) with hz | hp
  · rw [if_neg (by omega)] at h
    injection h with h
    subst h
    refine ⟨by simp [hz], by omega, fun _ => ⟨rfl, rfl⟩⟩
  · rw [if_pos hp] at h
    injection h with h
    subst h
    exact ⟨by simpa using hp, fun _ => rfl, by omega⟩

/-- Witness for C1: two live waiters, `notify_all`-style pop value 3 —
the chaining write stores `min(3 - 1, 2) = 2`. -/
theorem c1_wait_chaining_witness :
    ((cv_wait_for ⟨true, 2, []⟩ (some 3) []).map WaitResult.relayWritten)
        = some true ∧
    ((cv_wait_for ⟨true, 2, []⟩ (some 3) []).map (fun r => r.final.relay))
        = some [2] := by
  cases hc : cv_wait_for ⟨true, 2, []⟩ (some 3) [] with
  | none => exact absurd hc (by decide)
  | some r =>
    have h := c1_wait_chaining 2 [] [] 3 r (by decide) (by decide) (by decide) hc
    have hwrit : r.relayWritten = true := h.1.mpr (by decide)
    have hrel : r.final.relay = [2] := by simpa using h.2.1 (by decide)
    simp [hwrit, hrel]

/-! ## Claim C4 -/

/-- C4: in every `wait_for` execution the waiter counter changes only
between states in which the caller holds the lock — the increment happens
before the unlock and the decrement after the relock — and the final
counter value equals the value at entry, whether the wait timed out or
not. -/

theorem c4_waiters_lock_discipline (s0 : WaitObs) (popped : Option Nat)
    (relayMid : List Nat) (r : WaitResult) (hw : s0.waiters < UBaseMod)
    (h : cv_wait_for s0 popped relayMid = some r) :
    r.final.waiters = s0.waiters ∧
    List.Chain'
      (fun a b => a.waiters ≠ b.waiters → a.lockHeld = true ∧ b.lockHeld = true)
      r.trace := by
  have hw5 := inc_dec_mod s0.waiters hw
  cases popped with
  | none =>
    simp only [cv_wait_for] at h
    split at h
    case isTrue hl =>
      injection h with h
      subst h
      exact ⟨hw5, by simp [List.chain'_cons, hl, hw5]⟩
    case isFalse => exact Option.noConfusion h
  | some rx =>
    simp only [cv_wait_for] at h
    split at h
    case isTrue hl =>
      split at h
      · injection h with h
        subst h
        exact ⟨hw5, by simp [List.chain'_cons, hl, hw5]⟩
      · injection h with h
        subst h
        exact ⟨hw5, by simp [List.chain'_cons, hl, hw5]⟩
    case isFalse => exact Option.noConfusion h

/-- Witness for C4: a timed-out wait starting from two registered waiters
returns with the counter restored to 2. -/
theorem c4_waiters_lock_discipline_witness :
    ((cv_wait_for ⟨true, 2, [7]⟩ none []).map (fun r => r.final.waiters))
      = some 2 := by
  cases hc : cv_wait_for ⟨true, 2, [7]⟩ none [] with
  | none => exact absurd hc (by decide)
  | some r =>
    have h := c4_waiters_lock_discipline ⟨true, 2, [7]⟩ none [] r (by decide) hc
    simp [h.1]

/-! ## Claim C5 -/

/-- C5: `wait_for` always ends with the lock reacquired, and its returned
status is `cv_status::timeout` exactly when the relay pop received no
value, `cv_status::no_timeout` exactly when a value was received — the
timeout is reported through this status value and through nothing else. -/

theorem c5_status_and_relock (s0 : WaitObs) (popped : Option Nat)
    (relayMid : List Nat) (r : WaitResult)
    (h : cv_wait_for s0 popped relayMid = some r) :
    r.final.lockHeld = true ∧
    (r.status = CvStatus.timeout ↔ popped = none) ∧
    (r.status = CvStatus.no_timeout ↔ popped ≠ none) := by
  cases popped with
  | none =>
    simp only [cv_wait_for] at h
    split at h
    case isTrue hl =>
      injection h with h
      subst h
      simp
    case isFalse => exact Option.noConfusion h
  | some rx =>
    simp only [cv_wait_for] at h
    split at h
    case isTrue hl =>
      split at h
      · injection h with h
        subst h
        simp
      · injection h with h
        subst h
        simp
    case isFalse => exact Option.noConfusion h

/-- Witness for C5: a pop that received no value yields status `timeout`
with the lock held again. -/
theorem c5_status_and_relock_witness :
    ((cv_wait_for ⟨true, 1, []⟩ none [4]).map (fun r => r.final.lockHeld))
        = some true ∧
    ((cv_wait_for ⟨true, 1, []⟩ none [4]).map WaitResult.status)
        = some CvStatus.timeout := by
  cases hc : cv_wait_for ⟨true, 1, []⟩ none [4] with
  | none => exact absurd hc (by decide)
  | some r =>
    have h := c5_status_and_relock ⟨true, 1, []⟩ none [4] r hc
    have h2 : r.status = CvStatus.timeout := h.2.1.mpr rfl
    simp [h.1, h2]

/-! ## Claim C2 -/

/-- C2: a `notify_one` or `notify_all` call with `waiters_ = 0` leaves the
condition-variable state (in particular the relay queue) unchanged, so no
value persists for a later waiter; with `waiters_ > 0`, `notify_one`
pushes the value 1 onto the front of the relay and `notify_all` pushes
the current live waiter count. -/
theorem c2_notify_semantics (s : CVState) :
    (s.waiters = 0 → cv_notify_one s = s ∧ cv_notify_all s = s) ∧
    (0 < s.waiters →
      cv_notify_one s = cv_notify s 1 ∧
      cv_notify_all s = cv_notify s s.waiters ∧
      (s.relay = [] → (cv_notify_one s).relay = [1] ∧
        (cv_notify_all s).relay = [s.waiters])) := by
  constructor
  · intro h
    simp [cv_notify_one, cv_notify_all, h]
  · intro h
    refine ⟨?_, ?_, ?_⟩
    · simp [cv_notify_one, h]
    · simp [cv_notify_all, h]
    · intro hr
      simp [cv_notify_one, cv_notify_all, cv_notify, queueSendToFront, h, hr]

/-- Witness for C2 at concrete states: zero waiters is a no-op, and with
three waiters and an empty relay `notify_all` stores 3. -/
theorem c2_notify_semantics_witness :
    cv_notify_one ⟨0, []⟩ = ⟨0, []⟩ ∧ (cv_notify_all ⟨3, []⟩).relay = [3] := by
  have h0 := c2_notify_semantics ⟨0, []⟩
  have h3 := c2_notify_semantics ⟨3, []⟩
  exact ⟨(h0.1 rfl).1, ((h3.2 (by decide)).2.2 rfl).2⟩

/-! ## Claim C3 -/

/-- C3 counterexample: with two live waiters and the relay slot still
holding an unconsumed value 1, `notify_all` leaves the stored content
unchanged but the new notification value 2 is nowhere in the relay — it
is dropped, not queued behind the stored value. -/
theorem c3_full_slot_counterexample :
    (cv_notify_all ⟨2, [1]⟩).relay = [1] ∧
      2 ∉ (cv_notify_all ⟨2, [1]⟩).relay := by
  decide

/-- C3 (amended): when a notify pushes onto the single-slot relay while
the slot still holds an unconsumed value, the stored content is left
unchanged — overwriting happens only via the `replace` operation — and
the new notification is discarded entirely (the zero-wait push fails and
its result is ignored), so the notification may be lost. -/
theorem c3_notify_on_full_slot (s : CVState) (v : Nat) (h : s.relay ≠ []) :
    cv_notify s v = s ∧ queueOverwrite s.relay v = [v] := by
  constructor
  · have hlen : ¬ s.relay.length < 1 := by
      intro hc
      exact h (List.length_eq_zero.mp (by omega))
    simp [cv_notify, queueSendToFront, hlen]
  · rfl

/-- Witness for C3's amended statement at a concrete state: a full relay
slot absorbs a notify of value 5 without change, while `replace` would
overwrite it. -/
theorem c3_notify_on_full_slot_witness :
    cv_notify ⟨2, [1]⟩ 5 = ⟨2, [1]⟩ ∧ queueOverwrite [1] 5 = [5] := by
  have h := c3_notify_on_full_slot ⟨2, [1]⟩ 5 (by decide)
  exact ⟨h.1, h.2⟩

/-! ## Claim C6 -/

/-- C6: `mutex::unlock` by a thread that is not the recorded holder —
including a double unlock, when no holder is recorded — hits the fatal
assertion and never silently succeeds; when the caller is the recorded
holder the assertion branch is unreachable and the underlying semaphore
is released. -/
theorem c6_unlock_holder_check (m : MutexSt) (current : Nat)
    (hc : 0 < current) :
    (m.holder ≠ some current → mutex_unlock m current = Except.error ()) ∧
    (m.holder = some current →
      mutex_unlock m current = Except.ok ⟨none, 1⟩) := by
  constructor
  · intro hne
    cases hm : m.holder with
    | none =>
      unfold mutex_unlock
      rw [hm, if_neg (by simp [thread_ptr_id]; omega)]
    | some t =>
      have ht : t ≠ current := fun hcur => hne (by rw [hm, hcur])
      unfold mutex_unlock
      rw [hm, if_neg (by simpa [thread_ptr_id] using ht)]
  · intro he
    unfold mutex_unlock
    rw [if_pos (by simp [thread_ptr_id, he])]
    simp [semaphore_release_mutex, xSemaphoreGiveMutex, he]

/-- Witness for C6: thread 5 unlocking its own mutex succeeds and frees
it; unlocking an unheld mutex (double unlock) trips the assertion. -/
theorem c6_unlock_holder_check_witness :
    mutex_unlock ⟨some 5, 0⟩ 5 = Except.ok ⟨none, 1⟩ ∧
    mutex_unlock ⟨none, 1⟩ 5 = Except.error () := by
  have h1 := c6_unlock_holder_check ⟨some 5, 0⟩ 5 (by decide)
  have h2 := c6_unlock_holder_check ⟨none, 1⟩ 5 (by decide)
  exact ⟨h1.2 rfl, h2.1 (by simp)⟩

/-! ## Claim C8 -/

/-- C8: `thread::set_exit_condition` hits the fatal assertion whenever
the exit-observer slot is already occupied, and under the precondition
that the slot is empty it stores the given condition pointer there — at
most one exit observer can be registered at a time. -/
theorem c8_exit_condition_slot (slot : Option Nat) (cond : Nat) :
    (slot ≠ none → set_exit_condition slot cond = Except.error ()) ∧
    (slot = none → set_exit_condition slot cond = Except.ok (some cond)) := by
  constructor
  · intro h
    simp [set_exit_condition, h]
  · intro h
    simp [set_exit_condition, h]

/-- Witness for C8: storing observer 7 in an empty slot succeeds; a
second registration trips the assertion. -/
theorem c8_exit_condition_slot_witness :
    set_exit_condition none 7 = Except.ok (some 7) ∧
    set_exit_condition (some 7) 9 = Except.error () := by
  have h1 := c8_exit_condition_slot none 7
  have h2 := c8_exit_condition_slot (some 7) 9
  exact ⟨h1.2 rfl, h2.1 (by simp)⟩

/-! ## Claim C9 -/

/-- C9: queried from thread context, `queue::full` returns true exactly
when the queue holds zero messages and `queue::empty` returns true
exactly when it has zero free spaces — the two predicates report the
opposite of their names — while the interrupt-context branches use the
kernel's matching native full/empty tests. -/
theorem c9_full_empty_swapped (q : KQueueSt) (h : q.messages ≤ q.capacity) :
    (queue_full q false = true ↔ q.messages = 0) ∧
    (queue_empty q false = true ↔ q.messages = q.capacity) ∧
    (queue_full q true = true ↔ q.messages = q.capacity) ∧
    (queue_empty q true = true ↔ q.messages = 0) := by
  refine ⟨?_, ?_, ?_, ?_⟩ <;>
    (simp [queue_full, queue_empty, uxQueueMessagesWaiting,
      uxQueueSpacesAvailable, xQueueIsQueueFullFromISR,
      xQueueIsQueueEmptyFromISR]; try omega)

/-- Witness for C9: a queue of capacity 2 holding 2 messages (actually
full) reports `full() = false` and `empty() = true` from thread
context. -/
theorem c9_full_empty_swapped_witness :
    queue_full ⟨2, 2⟩ false = false ∧ queue_empty ⟨2, 2⟩ false = true := by
  have h := c9_full_empty_swapped ⟨2, 2⟩ (by decide)
  constructor
  · cases hq : queue_full ⟨2, 2⟩ false
    · rfl
    · exact absurd (h.1.mp hq) (by decide)
  · exact h.2.1.mpr rfl

/-! ## Claim C10 -/

/-- The give loop returns true exactly when all `update` single gives fit
below the maximum, and applies the successful prefix. -/
theorem semaphore_give_spec (maxc : Nat) (update : Nat) :
    ∀ count, count ≤ maxc →
      ((semaphore_give count maxc update).1 = true ↔ count + update ≤ maxc) ∧
      (semaphore_give count maxc update).2 = min (count + update) maxc := by
  induction update with
  | zero =>
    intro count h
    simp [semaphore_give]
    omega
  | succ u ih =>
    intro count h
    by_cases hc : count < maxc
    · have hrec := ih (count + 1) (by omega)
      simp only [semaphore_give, xSemaphoreGiveCount, if_pos hc, if_true]
      constructor
      · rw [hrec.1]
        omega
      · rw [hrec.2]
        omega
    · simp only [semaphore_give, xSemaphoreGiveCount, if_neg hc]
      constructor
      · simp
        omega
      · simp
        omega

/-- C10: `semaphore::give(update)` performs `update` single-count kernel
gives in sequence, stops at the first failure, and returns true iff all
of them succeeded; the successfully given prefix stays applied — the
final count is `min(count + update, max)`, which can exceed the entry
count even when the result is false — and `semaphore::release` discards
the Boolean result entirely. -/
theorem c10_give_loop (count maxc update : Nat) (h : count ≤ maxc) :
    ((semaphore_give count maxc update).1 = true ↔ count + update ≤ maxc) ∧
    (semaphore_give count maxc update).2 = min (count + update) maxc ∧
    semaphore_release count maxc update = (semaphore_give count maxc update).2 := by
  have hs := semaphore_give_spec maxc update count h
  exact ⟨hs.1, hs.2, rfl⟩

/-- Witness for C10: giving 2 counts to a binary semaphore at count 0
fails overall, yet the first give stays applied (count becomes 1). -/
theorem c10_give_loop_witness :
    (semaphore_give 0 1 2).1 = false ∧ (semaphore_give 0 1 2).2 = 1 ∧
    semaphore_release 0 1 2 = 1 := by
  have h := c10_give_loop 0 1 2 (by decide)
  refine ⟨?_, ?_, ?_⟩
  · cases hq : (semaphore_give 0 1 2).1
    · rfl
    · exact absurd (h.1.mp hq) (by decide)
  · rw [h.2.1]
    decide
  · rw [h.2.2, h.2.1]
    decide

/-! ## Claim C7 -/

/-- Masking with `m` twice is the same as masking once. -/
theorem land_land_self (m x : Nat) : (m &&& x) &&& m = m &&& x := by
  apply Nat.eq_of_testBit_eq
  intro i
  cases hm : m.testBit i <;> cases hx : x.testBit i <;>
    simp [Nat.testBit_land, hm, hx]

/-- The first component returned by `condition_flags::wait` is always the
queried mask intersected with the observed event bits. -/
theorem condition_flags_wait_fst (bits mask : Nat) (e a : Bool) :
    (condition_flags_wait bits mask e a).1 = mask &&& bits := by
  unfold condition_flags_wait xEventGroupWaitBits
  split <;> rfl

/-- C7 counterexample: with event bits 0x1 and a match-all wait on mask
0x3, the wait condition is not satisfied — the wait times out — yet the
returned value is 0x1, not the zero sentinel `cflag::timeout()`. -/
theorem c7_timeout_counterexample :
    waitCondition 1 3 true = false ∧
    (condition_flags_wait 1 3 false true).1 = 1 ∧
    (1 : Nat) ≠ cflag_timeout := by
  decide

/-- C7 (amended): for every mask, mode and event-bit state the value
returned by `condition_flags::wait` has set bits only within the queried
mask (result AND mask = result); a timed-out match-any wait returns the
zero sentinel `cflag::timeout()`, while a timed-out match-all wait
returns the possibly nonzero partial subset of the mask observed set. -/
theorem c7_wait_mask_subset (bits mask : Nat) (exclusive matchAll : Bool) :
    ((condition_flags_wait bits mask exclusive matchAll).1 &&& mask
      = (condition_flags_wait bits mask exclusive matchAll).1) ∧
    (waitCondition bits mask matchAll = false → matchAll = false →
      (condition_flags_wait bits mask exclusive matchAll).1 = cflag_timeout) ∧
    (waitCondition bits mask matchAll = false → matchAll = true →
      (condition_flags_wait bits mask exclusive matchAll).1 = mask &&& bits) := by
  refine ⟨?_, ?_, ?_⟩
  · rw [condition_flags_wait_fst]
    exact land_land_self mask bits
  · intro hcond hma
    subst hma
    rw [condition_flags_wait_fst]
    simp [waitCondition] at hcond
    rw [Nat.land_comm]
    simpa [cflag_timeout] using hcond
  · intro hcond hma
    rw [condition_flags_wait_fst]

/-- Witness for C7's amended statement: the subset property at the
match-all timeout input, and the zero sentinel for a timed-out match-any
wait (bits 0x5, mask 0x2). -/
theorem c7_wait_mask_subset_witness :
    ((condition_flags_wait 1 3 false true).1 &&& 3
      = (condition_flags_wait 1 3 false true).1) ∧
    (condition_flags_wait 5 2 true false).1 = cflag_timeout := by
  have h1 := c7_wait_mask_subset 1 3 false true
  have h2 := c7_wait_mask_subset 5 2 true false
  exact ⟨h1.1, h2.2.1 (by decide) rfl⟩

end FreertosMcpp
